import Mathlib

/-!
Shallow embedding of `service/hook/endpoint.go` from the bitrise-webhooks
repository, together with theorems checking the natural-language
specification against it.

The file under `src/` is `endpoint.go` alone.  Its collaborators
(`bitriseapi.TriggerBuild`, `bitriseapi.BuildTriggerURL`, the `github`
provider's `Transform`, the `config` and `service` packages) are external
code; they are represented here as abstract parameters collected in `Env`,
exactly at the boundary the spec gives them in its interface section.
Go `error` values are embedded as `Option String` (the error text,
`none` standing for `nil`); the HTTP responder calls are embedded as the
`HookResponse` value the handler would serialize.  `metrics.Trace` runs
its closure synchronously and is inlined.  `log.Printf` calls are
recorded in a `logs` trace, and every invocation of
`bitriseapi.TriggerBuild` is recorded in an `attempts` trace, so that
claims about "no downstream call" and call order are statable.
-/

namespace BitriseWebhooks

/-- Raw inbound webhook request (the `*http.Request` handed to
`Provider.Transform`); its contents are never inspected by the core. -/
structure Request where
  raw : String
deriving DecidableEq, Repr

/-- Embeds `*url.URL` as its string rendering; the core only passes it
through. -/
structure URL where
  urlString : String
deriving DecidableEq, Repr

/-- Embeds `bitriseapi.TriggerAPIParamsModel`: an opaque descriptor of one
build to start, not interpreted by the core. -/
structure TriggerAPIParamsModel where
  payload : String
deriving DecidableEq, Repr

/-- Embeds `hookCommon.TransformResultModel` as used by `endpoint.go`:
a list of trigger descriptors, an optional error (its text), and the
skip flag. -/
structure TransformResultModel where
  triggerAPIParams : List TriggerAPIParamsModel
  error : Option String
  shouldSkip : Bool
deriving DecidableEq, Repr

/-- The client-facing response.  `success` embeds
`service.RespondWithSuccess` with a `SuccessRespModel` message (the single
accept status class; the concrete code of `RespondWithSuccess` is outside
`src/`).  `failure` embeds `service.RespondWithErrorJSON` with the numeric
HTTP status passed at the call site and the `ErrorRespModel` error list. -/
inductive HookResponse where
  | success (message : String)
  | failure (status : Nat) (errors : List String)
deriving DecidableEq, Repr

/-- One recorded invocation of `bitriseapi.TriggerBuild`: the URL,
credential and trigger descriptor it was called with. -/
structure TriggerAttempt where
  url : URL
  apiToken : String
  param : TriggerAPIParamsModel
deriving DecidableEq, Repr

/-- External collaborators of `endpoint.go`, per the interface contracts:
`sendRequestToURL` is `config.SendRequestToURL`; `serverEnvMode` is
`config.GetServerEnvMode()`; `buildTriggerURL` is
`bitriseapi.BuildTriggerURL`; `triggerAPI` is `bitriseapi.TriggerBuild`
(first argument the `isOnlyLog` flag, result the returned error);
`githubTransform` is `github.HookProvider{}.Transform`, the one entry of
the provider registry, whose body is provider-adapter code outside the
core. -/
structure Env where
  sendRequestToURL : Option URL
  serverEnvMode : String
  buildTriggerURL : String → String → Except String URL
  triggerAPI : Bool → URL → String → TriggerAPIParamsModel → Option String
  githubTransform : Request → TransformResultModel

/-- Embeds `supportedProviders()`: the fixed registry mapping the single
identifier "github" to the github provider. -/
def supportedProviders (env : Env) (serviceID : String) :
    Option (Request → TransformResultModel) :=
  if serviceID = "github" then some env.githubTransform else none

/-- Go renders a nil error through the `%s` verb this way; a non-nil error
renders as its text. -/
def formatGoError : Option String → String
  | none => "%!s(<nil>)"
  | some s => s

/-- Embeds the `isOnlyLog` computation inside `triggerBuild`:
`!(config.SendRequestToURL != nil || config.GetServerEnvMode() == config.ServerEnvModeProd)`.
The production-mode constant lives outside `src/`; its exact text is
irrelevant to every claim since the flag is only passed through to the
abstract trigger API. -/
def isOnlyLog (env : Env) : Bool :=
  !(env.sendRequestToURL.isSome || env.serverEnvMode == "production")

/-- Embeds the package-level `triggerBuild` helper: one downstream call,
wrapping a failure as "Failed to Trigger the Build: ...". -/
def triggerBuild (env : Env) (triggerURL : URL) (apiToken : String)
    (triggerAPIParams : TriggerAPIParamsModel) : Option String :=
  match env.triggerAPI (isOnlyLog env) triggerURL apiToken triggerAPIParams with
  | some err => some ("Failed to Trigger the Build: " ++ err)
  | none => none

/-- Embeds the `for _, aBuildTriggerParam := range ...` loop of the
dispatch block: attempt every descriptor in order, appending one error per
failed attempt.  Returns the recorded attempts and the accumulated
errors. -/
def dispatchLoop (env : Env) (u : URL) (tok : String) :
    List TriggerAPIParamsModel → List TriggerAttempt × List String
  | [] => ([], [])
  | p :: rest =>
    let tail := dispatchLoop env u tok rest
    (⟨u, tok, p⟩ :: tail.1,
      match triggerBuild env u tok p with
      | some e => e :: tail.2
      | none => tail.2)

/-- The synthesized error used when a webhook yields no trigger
descriptors. -/
def noEventDetectedMessage : String :=
  "After processing the webhook we failed to detect any event in it which could be turned into a build."

/-- Embeds the body of the `metrics.Trace("Hook: Trigger Builds", ...)`
closure: zero descriptors synthesize the single "no event" error with no
call; exactly one attempts that one call; two or more run the loop over
all of them.  Returns the recorded attempts and the error list. -/
def triggerBuilds (env : Env) (u : URL) (tok : String) :
    List TriggerAPIParamsModel → List TriggerAttempt × List String
  | [] => ([], [noEventDetectedMessage])
  | [p] =>
    match triggerBuild env u tok p with
    | some e => ([⟨u, tok, p⟩], [e])
    | none => ([⟨u, tok, p⟩], [])
  | ps => dispatchLoop env u tok ps

/-- Embeds the trigger-URL resolution block of `HTTPHandler`: use
`config.SendRequestToURL` unchanged when set, otherwise derive the
endpoint from the app slug via `bitriseapi.BuildTriggerURL`. -/
def resolveTriggerURL (env : Env) (appSlug : String) : Except String URL :=
  match env.sendRequestToURL with
  | some u => Except.ok u
  | none => env.buildTriggerURL "https://www.bitrise.io" appSlug

/-- Everything observable about one handled request: the response written,
the downstream trigger calls attempted (in call order), and the
`log.Printf` lines emitted. -/
structure HandlerOutput where
  response : HookResponse
  attempts : List TriggerAttempt
  logs : List String
deriving DecidableEq, Repr

/-- Embeds `HTTPHandler` from `endpoint.go`.  The three `mux.Vars` values
are passed explicitly; `http.StatusBadRequest` is 400; the
`respondWithSingleErrorStr` helpers become singleton error lists. -/
def HTTPHandler (env : Env) (serviceID appSlug apiToken : String)
    (r : Request) : HandlerOutput :=
  if serviceID = "" then
    ⟨.failure 400 ["No service-id defined"], [], []⟩
  else if appSlug = "" then
    ⟨.failure 400 ["No App Slug parameter defined"], [], []⟩
  else if apiToken = "" then
    ⟨.failure 400 ["No API Token parameter defined"], [], []⟩
  else
    match supportedProviders env serviceID with
    | none =>
      ⟨.failure 400 ["Unsupported Webhook Type / Provider: " ++ serviceID], [], []⟩
    | some transform =>
      let hookTransformResult := transform r
      if hookTransformResult.shouldSkip then
        ⟨.success ("Acknowledged, but skipping. Reason: " ++
            formatGoError hookTransformResult.error), [], []⟩
      else
        match hookTransformResult.error with
        | some e =>
          ⟨.failure 400 ["Failed to transform the webhook: " ++ e], [],
            [" (debug) " ++ ("Failed to transform the webhook: " ++ e)]⟩
        | none =>
          match resolveTriggerURL env appSlug with
          | Except.error e =>
            ⟨.failure 400 ["Failed to create Build Trigger URL: " ++ e], [],
              [" [!] Exception: hookHandler: failed to create Build Trigger URL: " ++ e]⟩
          | Except.ok triggerURL =>
            let buildTriggerCount := hookTransformResult.triggerAPIParams.length
            let dispatched :=
              triggerBuilds env triggerURL apiToken hookTransformResult.triggerAPIParams
            if dispatched.2.length > 0 then
              ⟨.failure 400 dispatched.2, dispatched.1, []⟩
            else
              ⟨.success (if buildTriggerCount = 1 then
                  "Successfully triggered 1 build."
                else
                  "Successfully triggered " ++ toString buildTriggerCount ++ " builds."),
                dispatched.1, []⟩

/-! Concrete collaborators and environments used by witnesses and
counterexamples. -/

/-- A sample override trigger URL. -/
def sampleURL : URL := ⟨"https://example.test/trigger"⟩

/-- A sample trigger descriptor. -/
def sampleParam : TriggerAPIParamsModel := ⟨"p1"⟩

/-- A sample raw webhook request. -/
def sampleRequest : Request := ⟨"payload"⟩

/-- Environment whose provider skips with reason "not a push event". -/
def skipEnv : Env :=
  ⟨some sampleURL, "development", fun _ _ => Except.error "unused",
    fun _ _ _ _ => none, fun _ => ⟨[], some "not a push event", true⟩⟩

/-- Environment whose provider fails to transform with "bad payload". -/
def transformErrEnv : Env :=
  ⟨some sampleURL, "development", fun _ _ => Except.error "unused",
    fun _ _ _ _ => none, fun _ => ⟨[], some "bad payload", false⟩⟩

/-- Environment whose provider yields one trigger descriptor and whose
trigger API always succeeds. -/
def oneTriggerEnv : Env :=
  ⟨some sampleURL, "development", fun _ _ => Except.error "unused",
    fun _ _ _ _ => none, fun _ => ⟨[sampleParam], none, false⟩⟩

/-- Environment with no override URL, a failing URL derivation, and a
provider yielding zero trigger descriptors with no skip and no error. -/
def noEventBadURLEnv : Env :=
  ⟨none, "development", fun _ _ => Except.error "boom",
    fun _ _ _ _ => none, fun _ => ⟨[], none, false⟩⟩

/-- Environment with an override URL and a provider yielding zero trigger
descriptors with no skip and no error. -/
def noEventOkURLEnv : Env :=
  ⟨some sampleURL, "development", fun _ _ => Except.error "unused",
    fun _ _ _ _ => none, fun _ => ⟨[], none, false⟩⟩

/-! Dispatch lemmas shared by several claims. -/

theorem dispatchLoop_fst (env : Env) (u : URL) (tok : String)
    (ps : List TriggerAPIParamsModel) :
    (dispatchLoop env u tok ps).1 = ps.map (fun p => ⟨u, tok, p⟩) := by
  induction ps with
  | nil => rfl
  | cons p rest ih =>
    simp only [dispatchLoop, List.map_cons]
    cases h : triggerBuild env u tok p <;> simp [h, ih]

theorem dispatchLoop_snd (env : Env) (u : URL) (tok : String)
    (ps : List TriggerAPIParamsModel) :
    (dispatchLoop env u tok ps).2 = ps.filterMap (triggerBuild env u tok) := by
  induction ps with
  | nil => rfl
  | cons p rest ih =>
    simp only [dispatchLoop, List.filterMap_cons]
    cases h : triggerBuild env u tok p <;> simp [h, ih]

theorem triggerBuilds_fst (env : Env) (u : URL) (tok : String)
    (ps : List TriggerAPIParamsModel) :
    (triggerBuilds env u tok ps).1 = ps.map (fun p => ⟨u, tok, p⟩) := by
  match ps with
  | [] => rfl
  | [p] =>
    simp only [triggerBuilds]
    cases h : triggerBuild env u tok p <;> simp [h]
  | a :: b :: rest =>
    simp only [triggerBuilds]
    exact dispatchLoop_fst env u tok (a :: b :: rest)

theorem triggerBuilds_snd (env : Env) (u : URL) (tok : String)
    (ps : List TriggerAPIParamsModel) (h : ps ≠ []) :
    (triggerBuilds env u tok ps).2 = ps.filterMap (triggerBuild env u tok) := by
  match ps with
  | [] => exact absurd rfl h
  | [p] =>
    simp only [triggerBuilds, List.filterMap_cons, List.filterMap_nil]
    cases hb : triggerBuild env u tok p <;> simp [hb]
  | a :: b :: rest =>
    simp only [triggerBuilds]
    exact dispatchLoop_snd env u tok (a :: b :: rest)

/-- C1: whenever the resolved provider's Transform returns a result with
shouldSkip set and skip reason x (carried, as `endpoint.go` reads it, in
the result's error field), the handler responds with the success
acknowledgment and its message includes x. -/
theorem C1_skip_accepts_with_reason (env : Env)
    (serviceID appSlug apiToken : String) (r : Request)
    (ps : List TriggerAPIParamsModel) (x : String)
    (hsvc : serviceID ≠ "") (hslug : appSlug ≠ "") (htok : apiToken ≠ "")
    (hgh : serviceID = "github")
    (htr : env.githubTransform r = ⟨ps, some x, true⟩) :
    ∃ pre post, (HTTPHandler env serviceID appSlug apiToken r).response =
      HookResponse.success (pre ++ x ++ post) := by
  refine ⟨"Acknowledged, but skipping. Reason: ", "", ?_⟩
  subst hgh
  simp [HTTPHandler, supportedProviders, hsvc, hslug, htok, htr, formatGoError]

theorem C1_witness :
    ∃ pre post,
      (HTTPHandler skipEnv "github" "slug-1" "tok-1" sampleRequest).response =
        HookResponse.success (pre ++ "not a push event" ++ post) :=
  C1_skip_accepts_with_reason skipEnv "github" "slug-1" "tok-1" sampleRequest
    [] "not a push event" (by decide) (by decide) (by decide) rfl rfl

/-- C2: on the dispatch route with N ≥ 1 trigger descriptors, the handler
attempts exactly one downstream call per descriptor, in input order and
regardless of individual failures (the attempts trace equals the input
list), and the error list surfaced on failure is exactly the per-attempt
errors of the failed attempts (filterMap of the attempt outcome), with no
entry for successful attempts; when no attempt fails the handler
accepts. -/
theorem C2_dispatch_attempts_every_trigger (env : Env)
    (serviceID appSlug apiToken : String) (r : Request)
    (u : URL) (ps : List TriggerAPIParamsModel)
    (hsvc : serviceID ≠ "") (hslug : appSlug ≠ "") (htok : apiToken ≠ "")
    (hgh : serviceID = "github")
    (htr : env.githubTransform r = ⟨ps, none, false⟩)
    (hlen : 1 ≤ ps.length)
    (hurl : resolveTriggerURL env appSlug = Except.ok u) :
    (HTTPHandler env serviceID appSlug apiToken r).attempts =
      ps.map (fun p => ⟨u, apiToken, p⟩) ∧
    (ps.filterMap (triggerBuild env u apiToken) = [] →
      ∃ msg, (HTTPHandler env serviceID appSlug apiToken r).response =
        HookResponse.success msg) ∧
    (ps.filterMap (triggerBuild env u apiToken) ≠ [] →
      (HTTPHandler env serviceID appSlug apiToken r).response =
        HookResponse.failure 400 (ps.filterMap (triggerBuild env u apiToken))) := by
  subst hgh
  have hne : ps ≠ [] := List.ne_nil_of_length_pos (by omega)
  have hfst := triggerBuilds_fst env u apiToken ps
  have hsnd := triggerBuilds_snd env u apiToken ps hne
  refine ⟨?_, ?_, ?_⟩
  · simp [HTTPHandler, supportedProviders, hsvc, hslug, htok, htr, hurl, hfst,
      hsnd, apply_ite HandlerOutput.attempts]
  · intro hnil
    refine ⟨if ps.length = 1 then "Successfully triggered 1 build."
      else "Successfully triggered " ++ toString ps.length ++ " builds.", ?_⟩
    simp [HTTPHandler, supportedProviders, hsvc, hslug, htok, htr, hurl, hsnd,
      hnil, apply_ite HandlerOutput.response]
  · intro hnn
    have hpos : 0 < (ps.filterMap (triggerBuild env u apiToken)).length :=
      List.length_pos.mpr hnn
    simp [HTTPHandler, supportedProviders, hsvc, hslug, htok, htr, hurl, hsnd,
      hpos, apply_ite HandlerOutput.response]

theorem C2_witness :
    (HTTPHandler oneTriggerEnv "github" "slug-1" "tok-1" sampleRequest).attempts =
      [sampleParam].map (fun p => ⟨sampleURL, "tok-1", p⟩) :=
  (C2_dispatch_attempts_every_trigger oneTriggerEnv "github" "slug-1" "tok-1"
    sampleRequest sampleURL [sampleParam] (by decide) (by decide) (by decide)
    rfl rfl (by decide) rfl).1

/-- C3 counterexample: `endpoint.go` resolves the trigger URL before
counting the trigger descriptors, so a request with zero descriptors, no
skip and no error, but with no configured override URL and a failing URL
derivation, is rejected with the URL error, not with the synthesized
"no event" error the claim requires. -/
theorem C3_counterexample :
    (HTTPHandler noEventBadURLEnv "github" "slug-1" "tok-1" sampleRequest).response =
      HookResponse.failure 400 ["Failed to create Build Trigger URL: boom"] ∧
    (HTTPHandler noEventBadURLEnv "github" "slug-1" "tok-1" sampleRequest).response ≠
      HookResponse.failure 400 [noEventDetectedMessage] := by
  constructor
  · rfl
  · decide

/-- C3 amended: with zero trigger descriptors, no skip and no error, and
trigger-URL resolution succeeding (an override configured, or derivation
succeeding — resolution runs before the count is examined), the handler
rejects with the single synthesized "no event" error, attempts no
downstream call, and logs nothing. -/
theorem C3_no_event_rejection (env : Env)
    (serviceID appSlug apiToken : String) (r : Request)
    (hsvc : serviceID ≠ "") (hslug : appSlug ≠ "") (htok : apiToken ≠ "")
    (hgh : serviceID = "github")
    (htr : env.githubTransform r = ⟨[], none, false⟩)
    (hurl : ∃ u, resolveTriggerURL env appSlug = Except.ok u) :
    HTTPHandler env serviceID appSlug apiToken r =
      ⟨HookResponse.failure 400 [noEventDetectedMessage], [], []⟩ := by
  subst hgh
  obtain ⟨u, hu⟩ := hurl
  simp [HTTPHandler, supportedProviders, hsvc, hslug, htok, htr, hu,
    triggerBuilds]

theorem C3_witness :
    HTTPHandler noEventOkURLEnv "github" "slug-1" "tok-1" sampleRequest =
      ⟨HookResponse.failure 400 [noEventDetectedMessage], [], []⟩ :=
  C3_no_event_rejection noEventOkURLEnv "github" "slug-1" "tok-1" sampleRequest
    (by decide) (by decide) (by decide) rfl rfl ⟨sampleURL, rfl⟩

/-- C4: omitting any one of the three required caller parameters yields a
rejection whose single error names that parameter, and when several are
omitted the first detected wins, in the check order service-id, then
app-slug, then api-token. -/
theorem C4_missing_parameter_rejections (env : Env)
    (serviceID appSlug apiToken : String) (r : Request) :
    (serviceID = "" →
      HTTPHandler env serviceID appSlug apiToken r =
        ⟨HookResponse.failure 400 ["No service-id defined"], [], []⟩) ∧
    (serviceID ≠ "" → appSlug = "" →
      HTTPHandler env serviceID appSlug apiToken r =
        ⟨HookResponse.failure 400 ["No App Slug parameter defined"], [], []⟩) ∧
    (serviceID ≠ "" → appSlug ≠ "" → apiToken = "" →
      HTTPHandler env serviceID appSlug apiToken r =
        ⟨HookResponse.failure 400 ["No API Token parameter defined"], [], []⟩) := by
  refine ⟨?_, ?_, ?_⟩
  · intro h
    simp [HTTPHandler, h]
  · intro h1 h2
    simp [HTTPHandler, h1, h2]
  · intro h1 h2 h3
    simp [HTTPHandler, h1, h2, h3]

theorem C4_witness :
    HTTPHandler oneTriggerEnv "" "" "" sampleRequest =
      ⟨HookResponse.failure 400 ["No service-id defined"], [], []⟩ :=
  (C4_missing_parameter_rejections oneTriggerEnv "" "" "" sampleRequest).1 rfl

/-- C5: a source identifier that is not a key of the provider registry
(here, any identifier other than "github") is rejected with a single error
whose text includes the unrecognized identifier; the handler still returns
a normal response, so the miss is not fatal. -/
theorem C5_unsupported_provider_rejection (env : Env)
    (serviceID appSlug apiToken : String) (r : Request)
    (hsvc : serviceID ≠ "") (hslug : appSlug ≠ "") (htok : apiToken ≠ "")
    (hgh : serviceID ≠ "github") :
    ∃ pre post, HTTPHandler env serviceID appSlug apiToken r =
      ⟨HookResponse.failure 400 [pre ++ serviceID ++ post], [], []⟩ := by
  refine ⟨"Unsupported Webhook Type / Provider: ", "", ?_⟩
  simp [HTTPHandler, supportedProviders, hsvc, hslug, htok, hgh]

theorem C5_witness :
    ∃ pre post, HTTPHandler oneTriggerEnv "gitlab" "slug-1" "tok-1" sampleRequest =
      ⟨HookResponse.failure 400 [pre ++ "gitlab" ++ post], [], []⟩ :=
  C5_unsupported_provider_rejection oneTriggerEnv "gitlab" "slug-1" "tok-1"
    sampleRequest (by decide) (by decide) (by decide) (by decide)

/-- C6: a Transform result with a non-nil error and shouldSkip unset is
rejected with the single error wrapping the underlying error text, the
same text is recorded on the debug log, and no downstream call is
attempted. -/
theorem C6_transform_error_rejection (env : Env)
    (serviceID appSlug apiToken : String) (r : Request)
    (ps : List TriggerAPIParamsModel) (e : String)
    (hsvc : serviceID ≠ "") (hslug : appSlug ≠ "") (htok : apiToken ≠ "")
    (hgh : serviceID = "github")
    (htr : env.githubTransform r = ⟨ps, some e, false⟩) :
    HTTPHandler env serviceID appSlug apiToken r =
      ⟨HookResponse.failure 400 ["Failed to transform the webhook: " ++ e], [],
        [" (debug) " ++ ("Failed to transform the webhook: " ++ e)]⟩ := by
  subst hgh
  simp [HTTPHandler, supportedProviders, hsvc, hslug, htok, htr]

theorem C6_witness :
    HTTPHandler transformErrEnv "github" "slug-1" "tok-1" sampleRequest =
      ⟨HookResponse.failure 400 ["Failed to transform the webhook: bad payload"],
        [], [" (debug) " ++ ("Failed to transform the webhook: " ++ "bad payload")]⟩ :=
  C6_transform_error_rejection transformErrEnv "github" "slug-1" "tok-1"
    sampleRequest [] "bad payload" (by decide) (by decide) (by decide) rfl rfl

/-- C7: when every downstream call for the N ≥ 1 trigger descriptors
succeeds, the handler accepts with the message "Successfully triggered 1
build." exactly when N = 1, and "Successfully triggered N builds."
otherwise. -/
theorem C7_all_success_message (env : Env)
    (serviceID appSlug apiToken : String) (r : Request)
    (u : URL) (ps : List TriggerAPIParamsModel)
    (hsvc : serviceID ≠ "") (hslug : appSlug ≠ "") (htok : apiToken ≠ "")
    (hgh : serviceID = "github")
    (htr : env.githubTransform r = ⟨ps, none, false⟩)
    (hlen : 1 ≤ ps.length)
    (hurl : resolveTriggerURL env appSlug = Except.ok u)
    (hok : ∀ p ∈ ps, triggerBuild env u apiToken p = none) :
    (HTTPHandler env serviceID appSlug apiToken r).response =
      HookResponse.success (if ps.length = 1 then "Successfully triggered 1 build."
        else "Successfully triggered " ++ toString ps.length ++ " builds.") := by
  subst hgh
  have hne : ps ≠ [] := List.ne_nil_of_length_pos (by omega)
  have hsnd := triggerBuilds_snd env u apiToken ps hne
  have hnil : ps.filterMap (triggerBuild env u apiToken) = [] := by
    simp [List.filterMap_eq_nil_iff]
    exact hok
  simp [HTTPHandler, supportedProviders, hsvc, hslug, htok, htr, hurl, hsnd,
    hnil, apply_ite HandlerOutput.response]

theorem C7_witness :
    (HTTPHandler oneTriggerEnv "github" "slug-1" "tok-1" sampleRequest).response =
      HookResponse.success (if ([sampleParam].length = 1) then
        "Successfully triggered 1 build."
      else "Successfully triggered " ++ toString [sampleParam].length ++ " builds.") :=
  C7_all_success_message oneTriggerEnv "github" "slug-1" "tok-1" sampleRequest
    sampleURL [sampleParam] (by decide) (by decide) (by decide) rfl rfl
    (by decide) rfl (by intro p hp; rfl)

/-- C8: when the process-level override URL is configured, every attempted
downstream call uses it unchanged; otherwise the endpoint is derived from
the application identifier, a derivation failure rejects the single
request as a client error (the handler still returns a response, so the
process does not crash and nothing is retried), and a successful
derivation is the URL every attempt uses. -/
theorem C8_trigger_url_resolution (env : Env)
    (serviceID appSlug apiToken : String) (r : Request)
    (ps : List TriggerAPIParamsModel)
    (hsvc : serviceID ≠ "") (hslug : appSlug ≠ "") (htok : apiToken ≠ "")
    (hgh : serviceID = "github")
    (htr : env.githubTransform r = ⟨ps, none, false⟩) :
    (∀ u, env.sendRequestToURL = some u →
      ∀ a ∈ (HTTPHandler env serviceID appSlug apiToken r).attempts, a.url = u) ∧
    (∀ e, env.sendRequestToURL = none →
      env.buildTriggerURL "https://www.bitrise.io" appSlug = Except.error e →
      HTTPHandler env serviceID appSlug apiToken r =
        ⟨HookResponse.failure 400 ["Failed to create Build Trigger URL: " ++ e], [],
          [" [!] Exception: hookHandler: failed to create Build Trigger URL: " ++ e]⟩) ∧
    (∀ u, env.sendRequestToURL = none →
      env.buildTriggerURL "https://www.bitrise.io" appSlug = Except.ok u →
      ∀ a ∈ (HTTPHandler env serviceID appSlug apiToken r).attempts, a.url = u) := by
  subst hgh
  refine ⟨?_, ?_, ?_⟩
  · intro u hsome a hmem
    have hurl : resolveTriggerURL env appSlug = Except.ok u := by
      simp [resolveTriggerURL, hsome]
    have hatt : (HTTPHandler env "github" appSlug apiToken r).attempts =
        ps.map (fun p => ⟨u, apiToken, p⟩) := by
      simp [HTTPHandler, supportedProviders, hsvc, hslug, htok, htr, hurl,
        triggerBuilds_fst, apply_ite HandlerOutput.attempts]
    rw [hatt] at hmem
    obtain ⟨p, _, rfl⟩ := List.mem_map.mp hmem
    rfl
  · intro e hnone hbad
    have hurl : resolveTriggerURL env appSlug = Except.error e := by
      simp [resolveTriggerURL, hnone, hbad]
    simp [HTTPHandler, supportedProviders, hsvc, hslug, htok, htr, hurl]
  · intro u hnone hgood a hmem
    have hurl : resolveTriggerURL env appSlug = Except.ok u := by
      simp [resolveTriggerURL, hnone, hgood]
    have hatt : (HTTPHandler env "github" appSlug apiToken r).attempts =
        ps.map (fun p => ⟨u, apiToken, p⟩) := by
      simp [HTTPHandler, supportedProviders, hsvc, hslug, htok, htr, hurl,
        triggerBuilds_fst, apply_ite HandlerOutput.attempts]
    rw [hatt] at hmem
    obtain ⟨p, _, rfl⟩ := List.mem_map.mp hmem
    rfl

theorem C8_witness :
    HTTPHandler noEventBadURLEnv "github" "slug-1" "tok-1" sampleRequest =
      ⟨HookResponse.failure 400 ["Failed to create Build Trigger URL: " ++ "boom"],
        [], [" [!] Exception: hookHandler: failed to create Build Trigger URL: " ++ "boom"]⟩ :=
  (C8_trigger_url_resolution noEventBadURLEnv "github" "slug-1" "tok-1"
    sampleRequest [] (by decide) (by decide) (by decide) rfl rfl).2.1
    "boom" rfl rfl

/-- C9: every response the handler can produce is either the single accept
class (a success message, written through the one RespondWithSuccess
path) or a rejection carrying HTTP status 400, the one reject status used
by every error condition. -/
theorem C9_uniform_status_classes (env : Env)
    (serviceID appSlug apiToken : String) (r : Request) :
    (∃ m, (HTTPHandler env serviceID appSlug apiToken r).response =
      HookResponse.success m) ∨
    (∃ l, (HTTPHandler env serviceID appSlug apiToken r).response =
      HookResponse.failure 400 l) := by
  simp only [HTTPHandler]
  repeat' split
  all_goals
    first
    | exact Or.inl ⟨_, rfl⟩
    | exact Or.inr ⟨_, rfl⟩

/-- C10: a contract-violating Transform result with both shouldSkip set
and a non-nil error is accepted as a skip — the shouldSkip branch is
examined before the error branch — and the error text is what the
acknowledgment message prints as the skip reason. -/
theorem C10_skip_branch_precedes_error (env : Env)
    (serviceID appSlug apiToken : String) (r : Request)
    (ps : List TriggerAPIParamsModel) (e : String)
    (hsvc : serviceID ≠ "") (hslug : appSlug ≠ "") (htok : apiToken ≠ "")
    (hgh : serviceID = "github")
    (htr : env.githubTransform r = ⟨ps, some e, true⟩) :
    HTTPHandler env serviceID appSlug apiToken r =
      ⟨HookResponse.success ("Acknowledged, but skipping. Reason: " ++ e), [], []⟩ := by
  subst hgh
  simp [HTTPHandler, supportedProviders, hsvc, hslug, htok, htr, formatGoError]

theorem C10_witness :
    HTTPHandler skipEnv "github" "slug-1" "tok-1" sampleRequest =
      ⟨HookResponse.success
        ("Acknowledged, but skipping. Reason: " ++ "not a push event"), [], []⟩ :=
  C10_skip_branch_precedes_error skipEnv "github" "slug-1" "tok-1" sampleRequest
    [] "not a push event" (by decide) (by decide) (by decide) rfl rfl

end BitriseWebhooks
